import Mathlib

/-!
Verification of the SEQ suburb transit metrics pipeline (src/main.py,
src/utils/gtfs_schemas.py, src/utils/functions.py).

The Python pipeline is shallowly embedded: pandas tables become lists of
records, a groupby becomes key deduplication plus filtering, and merges
become list joins.  Exact rationals stand in for machine floats; GTFS
times are carried as integer second counts.
-/

namespace SEQTransit

/-- Splits a character list at every colon, mirroring the split on the
colon character that both time parsers of the source perform. -/
def splitColonChars : List Char → List (List Char)
  | [] => [[]]
  | c :: cs =>
    if c = ':' then [] :: splitColonChars cs
    else
      match splitColonChars cs with
      | [] => [[c]]
      | p :: ps => (c :: p) :: ps

/-- Parses a nonempty all-digit character list as a decimal natural
number, modelling the integer cast applied to each colon-separated field
of a GTFS time string. -/
def parseDigits (cs : List Char) : Option Nat :=
  if cs ≠ [] ∧ cs.all Char.isDigit then
    some (cs.foldl (fun a c => 10 * a + (c.toNat - 48)) 0)
  else none

/-- Embeds gtfs_time_to_seconds of src/utils/gtfs_schemas.py: split the
GTFS time string on colons, cast the three fields to integers, and return
hours*3600 + minutes*60 + seconds.  A string not of that shape makes the
integer cast fail, modelled by none. -/
def gtfs_time_to_seconds (s : String) : Option Nat :=
  match (splitColonChars s.toList).mapM parseDigits with
  | some [h, m, sec] => some (h * 3600 + m * 60 + sec)
  | _ => none

/-- Models the normalised day/second component representation a pandas
Timedelta stores after parsing a duration string. -/
structure PdTimedelta where
  days : Nat
  seconds : Nat
deriving DecidableEq

/-- Total length of the timedelta as a count of seconds. -/
def PdTimedelta.total_seconds (td : PdTimedelta) : Nat :=
  td.days * 86400 + td.seconds

/-- Models the pandas to_timedelta parse applied at src/main.py lines
126-127 to the raw arrival/departure strings: an H:MM:SS duration string
(hours unbounded) is parsed field-wise and normalised into whole days
plus a seconds-of-day remainder. -/
def to_timedelta (s : String) : Option PdTimedelta :=
  match (splitColonChars s.toList).mapM parseDigits with
  | some [h, m, sec] =>
    let t := h * 3600 + m * 60 + sec
    some ⟨t / 86400, t % 86400⟩
  | _ => none

/-- Embeds the worker pool sizing of src/main.py line 210:
num_workers = min(cpu_count() - 2, len(args_list)). -/
def num_workers (c n : Int) : Int :=
  min (c - 2) n

/-- Rounds a rational to two decimal places, modelling the Python
round(x, 2) at src/main.py line 133.  The fractional part of 100*x is
always a multiple of one third there (x is an integer second count
divided by 60), so no tie ever arises and any round-to-nearest rule
agrees with this one. -/
def round2 (q : ℚ) : ℚ :=
  ((⌊q * 100 + 1 / 2⌋ : ℤ) : ℚ) / 100

/-- Row of the validated stop-times table produced by valid_gtfs_data
(src/main.py line 115): a stop-time record joined with its trip's route
metadata and day flags.  The arrival/departure columns carry the second
counts that the to_timedelta parse of lines 126-127 extracts from the raw
strings; to_timedelta_agrees_with_gtfs_seconds below relates that parse
to the schema module's gtfs_time_to_seconds. -/
structure StopVisit where
  trip_id : String
  stop_id : String
  stop_sequence : Nat
  arrival_time : Int
  departure_time : Int
  pickup_type : Int
  drop_off_type : Int
  route_short_name : String
  route_type : Int
  monday : Nat
  tuesday : Nat
  wednesday : Nat
  thursday : Nat
  friday : Nat
  saturday : Nat
  sunday : Nat
  weekday : Nat
  weekend : Nat
deriving DecidableEq

/-- Stop-pair segment record appended at src/main.py lines 135-153; these
records are the rows of the per-route spill files. -/
structure Segment where
  from_stop_id : String
  to_stop_id : String
  pickup_from : Int
  drop_off_to : Int
  trip_id : String
  route_short_name : String
  route_type : Int
  travel_time : ℚ
  monday : Nat
  tuesday : Nat
  wednesday : Nat
  thursday : Nat
  friday : Nat
  saturday : Nat
  sunday : Nat
  weekday : Nat
  weekend : Nat
deriving DecidableEq

/-- Stable insertion of an element into a list relative to a boolean
ordering. -/
def insertSorted (le : α → α → Bool) (x : α) : List α → List α
  | [] => [x]
  | y :: ys => if le x y then x :: y :: ys else y :: insertSorted le x ys

/-- Stable insertion sort; models the sort_values call on stop_sequence
at src/main.py line 125. -/
def sortBy (le : α → α → Bool) (l : List α) : List α :=
  l.foldr (insertSorted le) []

/-- Stop visits of one trip ordered by stop_sequence (src/main.py line
125). -/
def sorted_trip (rows : List StopVisit) : List StopVisit :=
  sortBy (fun a b => decide (a.stop_sequence ≤ b.stop_sequence)) rows

/-- Enumerates every ordered pair (i, j) with i strictly before j, in the
iteration order of the nested loops at src/main.py lines 129-131. -/
def segPairs : List α → List (α × α)
  | [] => []
  | x :: xs => xs.map (fun y => (x, y)) ++ segPairs xs

/-- Builds one stop-pair segment record (src/main.py lines 132-153): the
travel time is arrival at the destination minus departure from the
origin, clamped to zero, converted to minutes and rounded to two decimal
places. -/
def mkSegment (route : String) (f t : StopVisit) : Segment :=
  { from_stop_id := f.stop_id
    to_stop_id := t.stop_id
    pickup_from := f.pickup_type
    drop_off_to := t.drop_off_type
    trip_id := f.trip_id
    route_short_name := route
    route_type := f.route_type
    travel_time := round2 (((max (t.arrival_time - f.departure_time) 0 : Int) : ℚ) / 60)
    monday := f.monday
    tuesday := f.tuesday
    wednesday := f.wednesday
    thursday := f.thursday
    friday := f.friday
    saturday := f.saturday
    sunday := f.sunday
    weekday := f.weekday
    weekend := f.weekend }

/-- Segment derivation for one trip (src/main.py lines 124-153): sort the
trip's stop visits by stop_sequence, then emit one segment per ordered
stop-pair. -/
def processTrip (route : String) (rows : List StopVisit) : List Segment :=
  (segPairs (sorted_trip rows)).map (fun p => mkSegment route p.1 p.2)

/-- Distinct trip identifiers of a route slice, in first-appearance
order; the keys of the groupby on trip_id at src/main.py line 124. -/
def trip_ids (df : List StopVisit) : List String :=
  (df.map (fun r => r.trip_id)).dedup

/-- Embeds process_route_to_parquet (src/main.py lines 120-169) at the
level of its observable result: the list of segment records written to
the route's spill file, or none when no trip of the group produced any
record (lines 155-156 return None and write no file). -/
def process_route_to_parquet (route : String) (df : List StopVisit) : Option (List Segment) :=
  let records :=
    (trip_ids df).flatMap (fun tid => processTrip route (df.filter (fun r => decide (r.trip_id = tid))))
  if records.isEmpty then none else some records

/-- Row of the routes-joined-with-trips table of src/main.py lines 84-86:
one record per trip carrying its route short name, route type and the
service's seven day-of-week flags. -/
structure RouteTripRow where
  route_short_name : String
  trip_id : String
  route_type : Int
  monday : Nat
  tuesday : Nat
  wednesday : Nat
  thursday : Nat
  friday : Nat
  saturday : Nat
  sunday : Nat
deriving DecidableEq

/-- Row of the route weekly status table (src/main.py lines 90-99). -/
structure WeeklyStatus where
  route_short_name : String
  monday : Nat
  tuesday : Nat
  wednesday : Nat
  thursday : Nat
  friday : Nat
  saturday : Nat
  sunday : Nat
  weekday : Nat
  weekend : Nat
deriving DecidableEq

/-- Group-wise maximum of one day column, as the groupby max at
src/main.py line 91 computes it. -/
def dayMax (g : List RouteTripRow) (day : RouteTripRow → Nat) : Nat :=
  (g.map day).foldr max 0

/-- Embeds src/main.py lines 90-99: group the route/trip table by route
short name, take the per-day maximum across the group, then set weekday
to 1 exactly when all five Monday..Friday maxima are nonzero and weekend
to 1 exactly when both weekend maxima are nonzero (the pandas all over
the row). -/
def routes_weekly_status (rows : List RouteTripRow) : List WeeklyStatus :=
  ((rows.map (fun r => r.route_short_name)).dedup).map (fun k =>
    let g := rows.filter (fun r => decide (r.route_short_name = k))
    let mo := dayMax g (fun r => r.monday)
    let tu := dayMax g (fun r => r.tuesday)
    let we := dayMax g (fun r => r.wednesday)
    let th := dayMax g (fun r => r.thursday)
    let fr := dayMax g (fun r => r.friday)
    let sa := dayMax g (fun r => r.saturday)
    let su := dayMax g (fun r => r.sunday)
    { route_short_name := k
      monday := mo, tuesday := tu, wednesday := we, thursday := th, friday := fr
      saturday := sa, sunday := su
      weekday := if mo ≠ 0 ∧ tu ≠ 0 ∧ we ≠ 0 ∧ th ≠ 0 ∧ fr ≠ 0 then 1 else 0
      weekend := if sa ≠ 0 ∧ su ≠ 0 then 1 else 0 })

/-- Embeds the filter at src/main.py lines 101-103: keep only status rows
with weekday = 1 or weekend = 1. -/
def qualifying_weekly_status (rows : List RouteTripRow) : List WeeklyStatus :=
  (routes_weekly_status rows).filter (fun s => decide (s.weekday = 1) || decide (s.weekend = 1))

/-- Route/trip row after the left merge with the qualifying weekly status
table (src/main.py line 106); the merged flags are null when the route
short name has no qualifying status row. -/
structure MergedRouteRow where
  base : RouteTripRow
  status_weekday : Option Nat
  status_weekend : Option Nat
deriving DecidableEq

/-- Embeds the left merge of src/main.py line 106: every route/trip row
is kept and annotated with its route's qualifying weekly status flags
when they exist. -/
def merge_weekly_status (rows : List RouteTripRow) (status : List WeeklyStatus) : List MergedRouteRow :=
  rows.map (fun r =>
    let m := status.find? (fun s => decide (s.route_short_name = r.route_short_name))
    { base := r
      status_weekday := m.map (fun s => s.weekday)
      status_weekend := m.map (fun s => s.weekend) })

/-- Route/trip row with its final weekday/weekend flags. -/
structure FlaggedRoute where
  base : RouteTripRow
  weekday : Nat
  weekend : Nat
deriving DecidableEq

/-- Embeds src/main.py lines 110-111: the weekday and weekend columns are
reassigned from each row's own day vector (any weekday set, any weekend
day set), overwriting whatever the status merge put there. -/
def recompute_flags (l : List MergedRouteRow) : List FlaggedRoute :=
  l.map (fun m =>
    { base := m.base
      weekday := if m.base.monday + m.base.tuesday + m.base.wednesday + m.base.thursday + m.base.friday > 0 then 1 else 0
      weekend := if m.base.saturday + m.base.sunday > 0 then 1 else 0 })

/-- Route/trip table with final flags, as it stands after src/main.py
line 111. -/
def flagged_routes (rows : List RouteTripRow) : List FlaggedRoute :=
  recompute_flags (merge_weekly_status rows (qualifying_weekly_status rows))

/-- Row of the raw (cast) stop_times table consumed at src/main.py line
114, with the time columns carried as the second counts of their GTFS
strings. -/
structure StopTimeRec where
  trip_id : String
  stop_id : String
  stop_sequence : Nat
  arrival_time : Int
  departure_time : Int
  pickup_type : Int
  drop_off_type : Int
deriving DecidableEq

/-- Combines a stop-time record with its trip's flagged route row into a
row of the validated per-trip table. -/
def mkStopVisit (st : StopTimeRec) (fr : FlaggedRoute) : StopVisit :=
  { trip_id := st.trip_id
    stop_id := st.stop_id
    stop_sequence := st.stop_sequence
    arrival_time := st.arrival_time
    departure_time := st.departure_time
    pickup_type := st.pickup_type
    drop_off_type := st.drop_off_type
    route_short_name := fr.base.route_short_name
    route_type := fr.base.route_type
    monday := fr.base.monday
    tuesday := fr.base.tuesday
    wednesday := fr.base.wednesday
    thursday := fr.base.thursday
    friday := fr.base.friday
    saturday := fr.base.saturday
    sunday := fr.base.sunday
    weekday := fr.weekday
    weekend := fr.weekend }

/-- Embeds the tail of valid_gtfs_data (src/main.py lines 113-117): the
inner merge of the stop_times table with the flagged route/trip table on
trip_id.  The calendar-window filtering of lines 64-79 is upstream of the
claims treated here and is reflected in which route/trip rows are passed
in. -/
def valid_gtfs_data (stopTimes : List StopTimeRec) (routeTrips : List RouteTripRow) : List StopVisit :=
  stopTimes.flatMap (fun st =>
    ((flagged_routes routeTrips).filter (fun fr => decide (fr.base.trip_id = st.trip_id))).map
      (fun fr => mkStopVisit st fr))

/-- Suburb polygon attributes as loaded from the locality shapefile; the
locality name may be null there. -/
structure SuburbRec where
  loc_code : String
  locality : Option String
deriving DecidableEq

/-- Stop record with its coordinates (src/main.py line 182). -/
structure StopRec where
  stop_id : String
  stop_lat : ℚ
  stop_lon : ℚ
deriving DecidableEq

/-- Embeds fetch_suburb_data of src/utils/functions.py lines 120-135 at
the attribute level: null locality names in the suburbs table are filled
with the string not found.  Note the fill happens on the suburbs table,
before any join with stops. -/
def fetch_suburb_data (raw : List SuburbRec) : List SuburbRec :=
  raw.map (fun s => { s with locality := some (s.locality.getD "not found") })

/-- Stop-to-locality assignment row (output of stops_with_suburbs); both
columns are null for a stop inside no suburb polygon. -/
structure StopLocality where
  stop_id : String
  loc_code : Option String
  locality : Option String
deriving DecidableEq

/-- Embeds stops_with_suburbs (src/main.py lines 176-194).  The
point-in-polygon test of the geopandas sjoin is an external geometric
library and enters the model as the boolean relation paramWithin; the
join itself is a left join: a stop matching no polygon yields one row
with null locality code and null locality name, and a stop matching
several polygons yields one row per match. -/
def stops_with_suburbs (stops : List StopRec) (suburbs : List SuburbRec)
    (paramWithin : StopRec → SuburbRec → Bool) : List StopLocality :=
  stops.flatMap (fun st =>
    let m := (fetch_suburb_data suburbs).filter (fun sb => paramWithin st sb)
    if m.isEmpty then [{ stop_id := st.stop_id, loc_code := none, locality := none }]
    else m.map (fun sb => { stop_id := st.stop_id, loc_code := some sb.loc_code, locality := sb.locality }))

/-- Segment row annotated with the from-stop locality (src/main.py lines
220-230). -/
structure SegFrom where
  seg : Segment
  from_loc_code : Option String
  from_locality : Option String
deriving DecidableEq

/-- Segment row annotated with both localities (src/main.py lines
231-241). -/
structure SegLoc where
  seg : Segment
  from_loc_code : Option String
  from_locality : Option String
  to_loc_code : Option String
  to_locality : Option String
deriving DecidableEq

/-- Embeds the first locality merge (src/main.py lines 220-230): a left
join of the segment table with the stop-to-locality table on the
from-stop. -/
def merge_from (segs : List Segment) (stops : List StopLocality) : List SegFrom :=
  segs.flatMap (fun s =>
    let m := stops.filter (fun t => decide (t.stop_id = s.from_stop_id))
    if m.isEmpty then [{ seg := s, from_loc_code := none, from_locality := none }]
    else m.map (fun t => { seg := s, from_loc_code := t.loc_code, from_locality := t.locality }))

/-- Embeds the second locality merge (src/main.py lines 231-241): a left
join with the stop-to-locality table on the to-stop. -/
def merge_to (rows : List SegFrom) (stops : List StopLocality) : List SegLoc :=
  rows.flatMap (fun s =>
    let m := stops.filter (fun t => decide (t.stop_id = s.seg.to_stop_id))
    if m.isEmpty then
      [{ seg := s.seg, from_loc_code := s.from_loc_code, from_locality := s.from_locality,
         to_loc_code := none, to_locality := none }]
    else m.map (fun t =>
      { seg := s.seg, from_loc_code := s.from_loc_code, from_locality := s.from_locality,
        to_loc_code := t.loc_code, to_locality := t.locality }))

/-- Generic group-and-aggregate: one output row per distinct key, built
from the key and the rows carrying it.  This models a pandas groupby of
non-null keys followed by agg. -/
def groupBy [DecidableEq κ] (key : α → κ) (agg : κ → List α → β) (rows : List α) : List β :=
  ((rows.map key).dedup).map (fun k => agg k (rows.filter (fun r => decide (key r = k))))

/-- Arithmetic mean of a list of rationals. -/
def qmean (l : List ℚ) : ℚ :=
  l.sum / (l.length : ℚ)

/-- Median in the pandas sense: midpoint of the two middle elements of
the sorted list (for odd length the two coincide). -/
def qmedian (l : List ℚ) : ℚ :=
  let s := sortBy (fun a b => decide (a ≤ b)) l
  (s.getD ((s.length - 1) / 2) 0 + s.getD (s.length / 2) 0) / 2

/-- Minimum of a nonempty list of rationals (0 for the empty list, which
no group produces). -/
def qmin (l : List ℚ) : ℚ :=
  match l with
  | [] => 0
  | x :: xs => xs.foldl min x

/-- Maximum of a nonempty list of rationals. -/
def qmax (l : List ℚ) : ℚ :=
  match l with
  | [] => 0
  | x :: xs => xs.foldl max x

/-- Number of distinct values, the pandas nunique aggregate. -/
def nunique [DecidableEq α] (l : List α) : Nat :=
  l.dedup.length

/-- Group key of the first aggregation pass (src/main.py line 246). -/
structure BKey where
  route_type : Int
  route_short_name : String
  from_loc_code : Option String
  to_loc_code : Option String
  weekday : Nat
  weekend : Nat
  from_locality : Option String
  to_locality : Option String
  monday : Nat
  tuesday : Nat
  wednesday : Nat
  thursday : Nat
  friday : Nat
  saturday : Nat
  sunday : Nat
deriving DecidableEq

/-- Output row of the first aggregation pass. -/
structure BRow where
  key : BKey
  number_of_trips : Nat
  travel_time : ℚ
deriving DecidableEq

/-- Key extraction for the first pass. -/
def bkey (r : SegLoc) : BKey :=
  { route_type := r.seg.route_type
    route_short_name := r.seg.route_short_name
    from_loc_code := r.from_loc_code
    to_loc_code := r.to_loc_code
    weekday := r.seg.weekday
    weekend := r.seg.weekend
    from_locality := r.from_locality
    to_locality := r.to_locality
    monday := r.seg.monday
    tuesday := r.seg.tuesday
    wednesday := r.seg.wednesday
    thursday := r.seg.thursday
    friday := r.seg.friday
    saturday := r.seg.saturday
    sunday := r.seg.sunday }

/-- Embeds the first aggregation pass (src/main.py lines 248-253),
including the silent dropna of the pandas groupby: rows whose locality
keys are null are discarded before grouping.  Aggregates: distinct trip
count and mean travel time. -/
def stepB (rows : List SegLoc) : List BRow :=
  groupBy bkey
    (fun k g =>
      { key := k
        number_of_trips := nunique (g.map (fun r => r.seg.trip_id))
        travel_time := qmean (g.map (fun r => r.seg.travel_time)) })
    (rows.filter (fun r =>
      r.from_loc_code.isSome && r.to_loc_code.isSome &&
      r.from_locality.isSome && r.to_locality.isSome))

/-- Group key of the second aggregation pass (src/main.py line 256). -/
structure CKey where
  route_short_name : String
  route_type : Int
  from_loc_code : Option String
  to_loc_code : Option String
  from_locality : Option String
  to_locality : Option String
  weekday : Nat
  weekend : Nat
deriving DecidableEq

/-- Output row of the second aggregation pass. -/
structure CRow where
  key : CKey
  number_of_routes : Nat
  number_of_trips : ℚ
  travel_time : ℚ
deriving DecidableEq

/-- Key extraction for the second pass. -/
def ckey (b : BRow) : CKey :=
  { route_short_name := b.key.route_short_name
    route_type := b.key.route_type
    from_loc_code := b.key.from_loc_code
    to_loc_code := b.key.to_loc_code
    from_locality := b.key.from_locality
    to_locality := b.key.to_locality
    weekday := b.key.weekday
    weekend := b.key.weekend }

/-- Embeds the second aggregation pass (src/main.py lines 255-261):
distinct route count, median trip count, mean travel time. -/
def stepC (rows : List BRow) : List CRow :=
  groupBy ckey
    (fun k g =>
      { key := k
        number_of_routes := nunique (g.map (fun b => b.key.route_short_name))
        number_of_trips := qmedian (g.map (fun b => (b.number_of_trips : ℚ)))
        travel_time := qmean (g.map (fun b => b.travel_time)) })
    rows

/-- Group key of the final aggregation pass (src/main.py line 264). -/
structure DKey where
  route_type : Int
  from_loc_code : Option String
  to_loc_code : Option String
  from_locality : Option String
  to_locality : Option String
  weekday : Nat
  weekend : Nat
deriving DecidableEq

/-- Output row of the final aggregation pass. -/
structure DRow where
  key : DKey
  number_of_routes : Nat
  number_of_trips_per_day : ℚ
  travel_time_min : ℚ
  travel_time_max : ℚ
  travel_time_median : ℚ
deriving DecidableEq

/-- Key extraction for the final pass. -/
def dkey (c : CRow) : DKey :=
  { route_type := c.key.route_type
    from_loc_code := c.key.from_loc_code
    to_loc_code := c.key.to_loc_code
    from_locality := c.key.from_locality
    to_locality := c.key.to_locality
    weekday := c.key.weekday
    weekend := c.key.weekend }

/-- Embeds the final aggregation pass (src/main.py lines 263-271):
distinct route count, summed trip counts, and min/max/median of the
per-route travel times. -/
def stepD (rows : List CRow) : List DRow :=
  groupBy dkey
    (fun k g =>
      { key := k
        number_of_routes := nunique (g.map (fun c => c.key.route_short_name))
        number_of_trips_per_day := (g.map (fun c => c.number_of_trips)).sum
        travel_time_min := qmin (g.map (fun c => c.travel_time))
        travel_time_max := qmax (g.map (fun c => c.travel_time))
        travel_time_median := qmedian (g.map (fun c => c.travel_time)) })
    rows

/-- Round half to even, the rounding mode of the pandas Series round at
src/main.py lines 277-279. -/
def roundHalfEven (q : ℚ) : ℤ :=
  if q - ⌊q⌋ < 1 / 2 then ⌊q⌋
  else if 1 / 2 < q - ⌊q⌋ then ⌊q⌋ + 1
  else if ⌊q⌋ % 2 = 0 then ⌊q⌋ else ⌊q⌋ + 1

/-- Round to the nearest integer minute and clip to at least one minute
(src/main.py lines 277-279). -/
def clip_round (q : ℚ) : ℤ :=
  max 1 (roundHalfEven q)

/-- Row of the final transit_summary report. -/
structure ReportRow where
  route_type : Int
  from_loc_code : Option String
  to_loc_code : Option String
  from_locality : Option String
  to_locality : Option String
  weekday : Nat
  weekend : Nat
  number_of_routes : Nat
  number_of_trips_per_day : ℤ
  travel_time_min : ℤ
  travel_time_max : ℤ
  travel_time_median : ℤ
deriving DecidableEq

/-- Post-processing of src/main.py lines 273-279: floor the trip count,
round and clip the three travel-time statistics. -/
def postRow (d : DRow) : ReportRow :=
  { route_type := d.key.route_type
    from_loc_code := d.key.from_loc_code
    to_loc_code := d.key.to_loc_code
    from_locality := d.key.from_locality
    to_locality := d.key.to_locality
    weekday := d.key.weekday
    weekend := d.key.weekend
    number_of_routes := d.number_of_routes
    number_of_trips_per_day := ⌊d.number_of_trips_per_day⌋
    travel_time_min := clip_round d.travel_time_min
    travel_time_max := clip_round d.travel_time_max
    travel_time_median := clip_round d.travel_time_median }

/-- Pandas inequality comparison of two nullable values: a comparison
involving a null is true, so the filter at src/main.py line 281 keeps a
row whose codes are both null. -/
def pandas_ne (a b : Option String) : Bool :=
  match a, b with
  | some x, some y => decide (x ≠ y)
  | _, _ => true

/-- Embeds the whole aggregation pipeline of src/main.py lines 220-281:
the two locality merges, the three aggregation passes, the numeric
post-processing, and the final intra-locality filter. -/
def transit_summary (segs : List Segment) (stops : List StopLocality) : List ReportRow :=
  (((stepD (stepC (stepB (merge_to (merge_from segs stops) stops)))).map postRow).filter
    (fun r => pandas_ne r.from_loc_code r.to_loc_code))

/-- Route groups of the validated per-trip table (src/main.py line 207). -/
def route_groups (table : List StopVisit) : List (String × List StopVisit) :=
  ((table.map (fun r => r.route_short_name)).dedup).map (fun k =>
    (k, table.filter (fun r => decide (r.route_short_name = k))))

/-- Embeds the coordinator of src/main.py lines 206-283.  Creating the
multiprocessing pool raises when the computed worker count is below one,
and concatenating the spilled frames raises when no spill file exists;
both failure messages follow the Python libraries. -/
def runPipeline (c : Int) (table : List StopVisit) (stops : List StopLocality) :
    Except String (List ReportRow) :=
  let groups := route_groups table
  let n := num_workers c (groups.length : Int)
  if n < 1 then Except.error "Number of processes must be at least 1"
  else
    let files := groups.map (fun g => process_route_to_parquet g.1 g.2)
    let dfs := files.filterMap id
    if dfs.isEmpty then Except.error "No objects to concatenate"
    else Except.ok (transit_summary dfs.flatten stops)

/-- Two route variants sharing route short name R1: trip T1 runs only on
Saturday, trip T2 only on Wednesday (scenario 3 of the spec). -/
def exRouteTrips : List RouteTripRow :=
  [{ route_short_name := "R1", trip_id := "T1", route_type := 3,
     monday := 0, tuesday := 0, wednesday := 0, thursday := 0, friday := 0,
     saturday := 1, sunday := 0 },
   { route_short_name := "R1", trip_id := "T2", route_type := 3,
     monday := 0, tuesday := 0, wednesday := 1, thursday := 0, friday := 0,
     saturday := 0, sunday := 0 }]

/-- One stop-time record of trip T1. -/
def exST1 : StopTimeRec :=
  { trip_id := "T1", stop_id := "S1", stop_sequence := 1,
    arrival_time := 28800, departure_time := 28800, pickup_type := 0, drop_off_type := 0 }

/-- Stop-times table holding only exST1. -/
def exStopTimes : List StopTimeRec := [exST1]

/-- The weekly status row the code computes for R1 from exRouteTrips. -/
def exStatusR1 : WeeklyStatus :=
  { route_short_name := "R1", monday := 0, tuesday := 0, wednesday := 1,
    thursday := 0, friday := 0, saturday := 1, sunday := 0, weekday := 0, weekend := 0 }

/-- The flagged route/trip row of trip T1 after the per-row flag
recomputation. -/
def exFR1 : FlaggedRoute :=
  { base := { route_short_name := "R1", trip_id := "T1", route_type := 3,
              monday := 0, tuesday := 0, wednesday := 0, thursday := 0, friday := 0,
              saturday := 1, sunday := 0 },
    weekday := 0, weekend := 1 }

/-- Scenario 1 of the spec: a single trip with stops A (departs 08:00),
B (arrives 08:10, departs 08:12) and C (arrives 08:20) on a route active
every weekday. -/
def exTripScenario : List StopVisit :=
  [{ trip_id := "T1", stop_id := "A", stop_sequence := 1,
     arrival_time := 28800, departure_time := 28800, pickup_type := 0, drop_off_type := 0,
     route_short_name := "R1", route_type := 3,
     monday := 1, tuesday := 1, wednesday := 1, thursday := 1, friday := 1,
     saturday := 0, sunday := 0, weekday := 1, weekend := 0 },
   { trip_id := "T1", stop_id := "B", stop_sequence := 2,
     arrival_time := 29400, departure_time := 29520, pickup_type := 0, drop_off_type := 0,
     route_short_name := "R1", route_type := 3,
     monday := 1, tuesday := 1, wednesday := 1, thursday := 1, friday := 1,
     saturday := 0, sunday := 0, weekday := 1, weekend := 0 },
   { trip_id := "T1", stop_id := "C", stop_sequence := 3,
     arrival_time := 30000, departure_time := 30000, pickup_type := 0, drop_off_type := 0,
     route_short_name := "R1", route_type := 3,
     monday := 1, tuesday := 1, wednesday := 1, thursday := 1, friday := 1,
     saturday := 0, sunday := 0, weekday := 1, weekend := 0 }]

/-- A route slice holding a single one-stop trip, which yields no
segments. -/
def exOneStop : List StopVisit :=
  [{ trip_id := "T9", stop_id := "S1", stop_sequence := 1,
     arrival_time := 28800, departure_time := 28800, pickup_type := 0, drop_off_type := 0,
     route_short_name := "R9", route_type := 3,
     monday := 1, tuesday := 0, wednesday := 0, thursday := 0, friday := 0,
     saturday := 0, sunday := 0, weekday := 1, weekend := 0 }]

/-- Fallback stop visit used only as the default of positional list
lookups. -/
def defaultVisit : StopVisit :=
  { trip_id := "", stop_id := "", stop_sequence := 0,
    arrival_time := 0, departure_time := 0, pickup_type := 0, drop_off_type := 0,
    route_short_name := "", route_type := 0,
    monday := 0, tuesday := 0, wednesday := 0, thursday := 0, friday := 0,
    saturday := 0, sunday := 0, weekday := 0, weekend := 0 }

/-- Two stops: S1 lies inside no suburb polygon, S2 lies inside the one
suburb. -/
def exStops : List StopRec :=
  [{ stop_id := "S1", stop_lat := 0, stop_lon := 0 },
   { stop_id := "S2", stop_lat := 1, stop_lon := 1 }]

/-- A single suburb polygon with a named locality. -/
def exSuburbs : List SuburbRec :=
  [{ loc_code := "4000", locality := some "Brisbane City" }]

/-- Concrete point-in-polygon relation for the example: only S2 lies in
the suburb. -/
def exWithin : StopRec → SuburbRec → Bool :=
  fun st _ => decide (st.stop_id = "S2")

/-- A segment from the locality-less stop S1 to the matched stop S2. -/
def exSegC2 : Segment :=
  { from_stop_id := "S1", to_stop_id := "S2", pickup_from := 0, drop_off_to := 0,
    trip_id := "T1", route_short_name := "R1", route_type := 3, travel_time := 10,
    monday := 1, tuesday := 0, wednesday := 0, thursday := 0, friday := 0,
    saturday := 0, sunday := 0, weekday := 1, weekend := 0 }

/-- Stop-to-locality table with both stops matched, for exercising the
aggregation pipeline. -/
def exStopsLoc : List StopLocality :=
  [{ stop_id := "S1", loc_code := some "A", locality := some "Alpha" },
   { stop_id := "S2", loc_code := some "B", locality := some "Beta" }]

/-- A five-minute segment between the two matched stops. -/
def exSeg : Segment :=
  { from_stop_id := "S1", to_stop_id := "S2", pickup_from := 0, drop_off_to := 0,
    trip_id := "T1", route_short_name := "R1", route_type := 3, travel_time := 5,
    monday := 1, tuesday := 0, wednesday := 0, thursday := 0, friday := 0,
    saturday := 0, sunday := 0, weekday := 1, weekend := 0 }

/-- The report row transit_summary produces from exSeg and exStopsLoc. -/
def exReport : ReportRow :=
  { route_type := 3, from_loc_code := some "A", to_loc_code := some "B",
    from_locality := some "Alpha", to_locality := some "Beta",
    weekday := 1, weekend := 0, number_of_routes := 1, number_of_trips_per_day := 1,
    travel_time_min := 5, travel_time_max := 5, travel_time_median := 5 }

theorem length_insertSorted (le : α → α → Bool) (x : α) (l : List α) :
    (insertSorted le x l).length = l.length + 1 := by
  induction l with
  | nil => rfl
  | cons y ys ih =>
    simp only [insertSorted]
    split
    · simp
    · simp [ih]

theorem length_sortBy (le : α → α → Bool) (l : List α) :
    (sortBy le l).length = l.length := by
  induction l with
  | nil => rfl
  | cons x xs ih =>
    simp only [sortBy, List.foldr_cons] at ih ⊢
    rw [length_insertSorted, ih, List.length_cons]

theorem mem_insertSorted (le : α → α → Bool) (x y : α) (l : List α) :
    y ∈ insertSorted le x l ↔ y = x ∨ y ∈ l := by
  induction l with
  | nil => simp [insertSorted]
  | cons z zs ih =>
    simp only [insertSorted]
    split
    · simp [or_comm, or_assoc, or_left_comm]
    · simp [ih, or_comm, or_assoc, or_left_comm]

theorem mem_sortBy (le : α → α → Bool) (x : α) (l : List α) :
    x ∈ sortBy le l ↔ x ∈ l := by
  induction l with
  | nil => simp [sortBy]
  | cons y ys ih =>
    simp only [sortBy, List.foldr_cons] at ih ⊢
    rw [mem_insertSorted]
    simp [ih]

theorem segPairs_length (l : List α) :
    2 * (segPairs l).length = l.length * (l.length - 1) := by
  induction l with
  | nil => rfl
  | cons x xs ih =>
    simp only [segPairs, List.length_append, List.length_map, List.length_cons]
    rcases hn : xs.length with _ | m
    · rw [hn] at ih
      omega
    · rw [hn] at ih
      have ih' : 2 * (segPairs xs).length = (m + 1) * m := by simpa using ih
      have h1 : (m + 1 + 1) * (m + 1 + 1 - 1) = (m + 1) * m + 2 * (m + 1) := by
        simp only [Nat.add_sub_cancel]
        ring
      rw [h1]
      omega

theorem pair_getD_mem_segPairs (l : List α) (d : α) (i j : Nat)
    (hj : j < l.length) (hij : i < j) :
    (l.getD i d, l.getD j d) ∈ segPairs l := by
  induction l generalizing i j with
  | nil => simp at hj
  | cons x xs ih =>
    cases i with
    | zero =>
      cases j with
      | zero => omega
      | succ j' =>
        simp only [segPairs, List.getD_cons_zero, List.getD_cons_succ, List.mem_append]
        left
        refine List.mem_map.mpr ⟨xs.getD j' d, ?_, rfl⟩
        have hj' : j' < xs.length := by simpa using hj
        rw [List.getD_eq_getElem xs d hj']
        exact List.getElem_mem hj'
    | succ i' =>
      cases j with
      | zero => omega
      | succ j' =>
        simp only [segPairs, List.getD_cons_succ, List.mem_append]
        right
        exact ih i' j' (by simpa using hj) (by omega)

theorem dayMax_ne_zero (g : List RouteTripRow) (f : RouteTripRow → Nat) :
    dayMax g f ≠ 0 ↔ ∃ r ∈ g, f r ≠ 0 := by
  unfold dayMax
  induction g with
  | nil => simp
  | cons r g ih =>
    simp only [List.map_cons, List.foldr_cons, List.mem_cons]
    constructor
    · intro h
      rcases Nat.eq_zero_or_pos (f r) with h0 | h0
      · obtain ⟨r', hr', hf⟩ := ih.mp (by omega)
        exact ⟨r', Or.inr hr', hf⟩
      · exact ⟨r, Or.inl rfl, by omega⟩
    · rintro ⟨r', hr' | hr', hf⟩
      · subst hr'; omega
      · have := ih.mpr ⟨r', hr', hf⟩
        omega

theorem ite_one_eq_one_iff {p : Prop} [Decidable p] :
    (if p then (1 : Nat) else 0) = 1 ↔ p := by
  split <;> rename_i h <;> simp [h]

theorem dayMax_filter_ne_zero (rows : List RouteTripRow) (k : String) (f : RouteTripRow → Nat) :
    dayMax (rows.filter (fun r => decide (r.route_short_name = k))) f ≠ 0 ↔
    ∃ r ∈ rows, r.route_short_name = k ∧ f r ≠ 0 := by
  rw [dayMax_ne_zero]
  constructor
  · rintro ⟨r, hr, hf⟩
    rw [List.mem_filter] at hr
    exact ⟨r, hr.1, by simpa using hr.2, hf⟩
  · rintro ⟨r, hr, hk, hf⟩
    exact ⟨r, List.mem_filter.2 ⟨hr, by simpa using hk⟩, hf⟩

theorem mem_groupBy [DecidableEq κ] {key : α → κ} {agg : κ → List α → β}
    {rows : List α} {b : β} (hb : b ∈ groupBy key agg rows) :
    ∃ r ∈ rows, b = agg (key r) (rows.filter (fun x => decide (key x = key r))) := by
  unfold groupBy at hb
  obtain ⟨k, hk, rfl⟩ := List.mem_map.1 hb
  rw [List.mem_dedup] at hk
  obtain ⟨r, hr, rfl⟩ := List.mem_map.1 hk
  exact ⟨r, hr, rfl⟩

/-- C5 (counterexample): the claim states that the worker pool size is
min(max(1, c - 2), n) for every machine parallelism value c; at c = 2
with five route groups the code computes min(0, 5) = 0 while the claimed
formula gives 1. -/
theorem c5_counterexample : num_workers 2 5 ≠ min (max 1 ((2 : Int) - 2)) 5 := by
  decide

/-- C5 (amended): the code computes num_workers = min(c - 2, n) with no
lower bound of one; for machine parallelism c at least 3 this coincides
with the claimed min(max(1, c - 2), n), while for c at most 2 the
computed pool size is nonpositive (and pool creation fails). -/
theorem c5_pool_size :
    (∀ c n : Int, 3 ≤ c → num_workers c n = min (max 1 (c - 2)) n) ∧
    (∀ c n : Int, c ≤ 2 → num_workers c n ≤ 0) := by
  constructor
  · intro c n hc
    unfold num_workers
    rw [max_eq_right (by omega : (1 : Int) ≤ c - 2)]
  · intro c n hc
    unfold num_workers
    calc min (c - 2) n ≤ c - 2 := min_le_left _ _
      _ ≤ 0 := by omega

/-- Witness for c5_pool_size at c = 8, n = 5 and at c = 2, n = 9. -/
theorem c5_pool_size_witness :
    num_workers 8 5 = min (max 1 ((8 : Int) - 2)) 5 ∧ num_workers 2 9 ≤ 0 :=
  ⟨c5_pool_size.1 8 5 (by decide), c5_pool_size.2 2 9 (by decide)⟩

/-- C10: parsing a GTFS time string with the pandas to_timedelta parse
used by segment derivation and reading off its total seconds agrees, on
every string, with gtfs_time_to_seconds of the schema module; in
particular the post-midnight string 25:10:00 parses to 90600 seconds
under both, and paired with a 23:59:00 departure it yields the positive
travel time of 71 minutes. -/
theorem c10_time_parse_agreement :
    (∀ s : String, (to_timedelta s).map PdTimedelta.total_seconds = gtfs_time_to_seconds s) ∧
    (to_timedelta "25:10:00").map PdTimedelta.total_seconds = some 90600 ∧
    gtfs_time_to_seconds "25:10:00" = some 90600 ∧
    gtfs_time_to_seconds "23:59:00" = some 86340 ∧
    round2 (((max ((90600 : Int) - 86340) 0 : Int) : ℚ) / 60) = 71 := by
  refine ⟨?_, by decide, by decide, by decide, by with_unfolding_all decide⟩
  intro s
  unfold to_timedelta gtfs_time_to_seconds
  cases hm : (splitColonChars s.toList).mapM parseDigits with
  | none => rfl
  | some l =>
    rcases l with _ | ⟨h, _ | ⟨m, _ | ⟨sec, _ | t⟩⟩⟩ <;> simp [PdTimedelta.total_seconds]
    omega

/-- C2 (code behaviour at the failing input): stop S1 matches no suburb
polygon, so the spatial left join leaves both its locality code and its
locality name null, not the sentinel string not found, and a segment
departing S1 is dropped by the aggregation passes, so it never reaches
the final report. -/
theorem c2_unmatched_stop_dropped :
    stops_with_suburbs exStops exSuburbs exWithin =
      [{ stop_id := "S1", loc_code := none, locality := none },
       { stop_id := "S2", loc_code := some "4000", locality := some "Brisbane City" }] ∧
    transit_summary [exSegC2] (stops_with_suburbs exStops exSuburbs exWithin) = [] := by
  constructor
  · decide
  · with_unfolding_all decide

/-- C4 (counterexample): with no route group at all the pipeline fails
while the claim promises an empty report: the computed pool size is
min(c - 2, 0) = 0 and pool creation raises. -/
theorem c4_counterexample :
    runPipeline 8 [] [] = Except.error "Number of processes must be at least 1" := by
  with_unfolding_all rfl

/-- C4 (amended): whenever every route group yields zero segments (in
particular when there is no route group), the pipeline raises an error
rather than producing an empty report: either the pool size is below one
and pool creation fails, or no spill file exists and the concatenation
of zero frames fails. -/
theorem c4_empty_is_error :
    ∀ (c : Int) (table : List StopVisit) (stops : List StopLocality),
      (∀ g ∈ route_groups table, process_route_to_parquet g.1 g.2 = none) →
      ∃ e, runPipeline c table stops = Except.error e := by
  intro c table stops h
  unfold runPipeline
  by_cases hn : num_workers c ((route_groups table).length : Int) < 1
  · rw [if_pos hn]
    exact ⟨_, rfl⟩
  · rw [if_neg hn]
    have hdfs : ((route_groups table).map
        (fun g => process_route_to_parquet g.1 g.2)).filterMap id = [] := by
      rw [List.filterMap_eq_nil_iff]
      intro a ha
      obtain ⟨g, hg, rfl⟩ := List.mem_map.1 ha
      exact h g hg
    refine ⟨"No objects to concatenate", ?_⟩
    simp only [hdfs]
    rfl

/-- Witness for c4_empty_is_error: the one route group of the one-stop
slice yields no segments and the pipeline errors. -/
theorem c4_empty_is_error_witness :
    (∀ g ∈ route_groups exOneStop, process_route_to_parquet g.1 g.2 = none) ∧
    ∃ e, runPipeline 8 exOneStop [] = Except.error e :=
  ⟨by with_unfolding_all decide,
   c4_empty_is_error 8 exOneStop [] (by with_unfolding_all decide)⟩

theorem stepD_key_from_input (l : List CRow) (d : DRow) (hd : d ∈ stepD l) :
    ∃ c ∈ l, d.key = dkey c := by
  unfold stepD at hd
  obtain ⟨c, hc, rfl⟩ := mem_groupBy hd
  exact ⟨c, hc, rfl⟩

theorem stepC_key_from_input (l : List BRow) (c : CRow) (hc : c ∈ stepC l) :
    ∃ b ∈ l, c.key = ckey b := by
  unfold stepC at hc
  obtain ⟨b, hb, rfl⟩ := mem_groupBy hc
  exact ⟨b, hb, rfl⟩

theorem stepB_loc_codes_some (l : List SegLoc) (b : BRow) (hb : b ∈ stepB l) :
    b.key.from_loc_code.isSome = true ∧ b.key.to_loc_code.isSome = true := by
  unfold stepB at hb
  obtain ⟨x, hx, rfl⟩ := mem_groupBy hb
  rw [List.mem_filter] at hx
  have h2 := hx.2
  simp only [Bool.and_eq_true] at h2
  exact ⟨h2.1.1.1, h2.1.1.2⟩

/-- C1 (counterexample): for the two variants of R1 where one trip runs
only Saturday and the other only Wednesday, the claim predicts a combined
Route Weekly Status of weekday = 1 and weekend = 1; the code computes
weekday = 0 and weekend = 0 for R1. -/
theorem c1_counterexample :
    ¬ ((routes_weekly_status exRouteTrips).map
        (fun s => (s.route_short_name, s.weekday, s.weekend)) = [("R1", 1, 1)]) := by
  decide

/-- C1 (amended): the weekly status table ORs each day flag across the
route's trips, but then sets weekday = 1 exactly when the route runs on
every weekday Monday through Friday, and weekend = 1 exactly when it runs
on both Saturday and Sunday; for the Saturday-only/Wednesday-only pair
the combined status is weekday = 0, weekend = 0 and R1 is dropped from
the qualifying status table, yet both trips are retained in the per-trip
table, whose flags are recomputed per trip from each trip's own day
vector. -/
theorem c1_weekly_status :
    (∀ (rows : List RouteTripRow) (s : WeeklyStatus), s ∈ routes_weekly_status rows →
        ((s.weekday = 1 ↔
            ((∃ r ∈ rows, r.route_short_name = s.route_short_name ∧ r.monday ≠ 0) ∧
             (∃ r ∈ rows, r.route_short_name = s.route_short_name ∧ r.tuesday ≠ 0) ∧
             (∃ r ∈ rows, r.route_short_name = s.route_short_name ∧ r.wednesday ≠ 0) ∧
             (∃ r ∈ rows, r.route_short_name = s.route_short_name ∧ r.thursday ≠ 0) ∧
             (∃ r ∈ rows, r.route_short_name = s.route_short_name ∧ r.friday ≠ 0))) ∧
         (s.weekend = 1 ↔
            ((∃ r ∈ rows, r.route_short_name = s.route_short_name ∧ r.saturday ≠ 0) ∧
             (∃ r ∈ rows, r.route_short_name = s.route_short_name ∧ r.sunday ≠ 0))))) ∧
    ((routes_weekly_status exRouteTrips).map
        (fun s => (s.route_short_name, s.weekday, s.weekend)) = [("R1", 0, 0)] ∧
     qualifying_weekly_status exRouteTrips = [] ∧
     (flagged_routes exRouteTrips).map (fun f => (f.base.trip_id, f.weekday, f.weekend)) =
       [("T1", 0, 1), ("T2", 1, 0)]) := by
  constructor
  · intro rows s hs
    unfold routes_weekly_status at hs
    obtain ⟨k, hk, rfl⟩ := List.mem_map.1 hs
    dsimp only
    rw [ite_one_eq_one_iff, ite_one_eq_one_iff]
    simp only [dayMax_filter_ne_zero]
    exact ⟨trivial, trivial⟩
  · exact ⟨by decide, by decide, by decide⟩

/-- Witness for c1_weekly_status at the concrete status row of R1. -/
theorem c1_weekly_status_witness :
    exStatusR1 ∈ routes_weekly_status exRouteTrips ∧
    ((exStatusR1.weekday = 1 ↔
        ((∃ r ∈ exRouteTrips, r.route_short_name = exStatusR1.route_short_name ∧ r.monday ≠ 0) ∧
         (∃ r ∈ exRouteTrips, r.route_short_name = exStatusR1.route_short_name ∧ r.tuesday ≠ 0) ∧
         (∃ r ∈ exRouteTrips, r.route_short_name = exStatusR1.route_short_name ∧ r.wednesday ≠ 0) ∧
         (∃ r ∈ exRouteTrips, r.route_short_name = exStatusR1.route_short_name ∧ r.thursday ≠ 0) ∧
         (∃ r ∈ exRouteTrips, r.route_short_name = exStatusR1.route_short_name ∧ r.friday ≠ 0))) ∧
     (exStatusR1.weekend = 1 ↔
        ((∃ r ∈ exRouteTrips, r.route_short_name = exStatusR1.route_short_name ∧ r.saturday ≠ 0) ∧
         (∃ r ∈ exRouteTrips, r.route_short_name = exStatusR1.route_short_name ∧ r.sunday ≠ 0)))) :=
  ⟨by decide, c1_weekly_status.1 exRouteTrips exStatusR1 (by decide)⟩

/-- C3 (counterexample): route R1 has computed weekly status weekday = 0
and weekend = 0, yet its trip T1 survives into the validated per-trip
table that feeds segment derivation. -/
theorem c3_counterexample :
    ((routes_weekly_status exRouteTrips).map (fun s => (s.weekday, s.weekend)) = [(0, 0)]) ∧
    (valid_gtfs_data exStopTimes exRouteTrips).map (fun v => (v.trip_id, v.route_short_name)) =
      [("T1", "R1")] := by
  exact ⟨by decide, by decide⟩

/-- C3 (amended): the weekday-or-weekend filter only prunes the weekly
status table; the route/trip table is left-joined with it and the flags
are then recomputed from each row's own day vector, so no trip row is
dropped, and every stop-time record of a surviving trip enters the
per-trip table regardless of the route's weekly status. -/
theorem c3_no_trip_dropped :
    (∀ rows : List RouteTripRow, (flagged_routes rows).map (fun f => f.base) = rows) ∧
    (∀ (stopTimes : List StopTimeRec) (routeTrips : List RouteTripRow)
        (st : StopTimeRec) (fr : FlaggedRoute),
        st ∈ stopTimes → fr ∈ flagged_routes routeTrips → fr.base.trip_id = st.trip_id →
        mkStopVisit st fr ∈ valid_gtfs_data stopTimes routeTrips) := by
  constructor
  · intro rows
    simp [flagged_routes, recompute_flags, merge_weekly_status, List.map_map]
    exact List.map_id' rows
  · intro stopTimes routeTrips st fr hst hfr htrip
    unfold valid_gtfs_data
    refine List.mem_flatMap.mpr ⟨st, hst, ?_⟩
    refine List.mem_map.mpr ⟨fr, ?_, rfl⟩
    exact List.mem_filter.mpr ⟨hfr, by simpa using htrip⟩

/-- Witness for c3_no_trip_dropped at the Saturday-only trip of R1. -/
theorem c3_no_trip_dropped_witness :
    (flagged_routes exRouteTrips).map (fun f => f.base) = exRouteTrips ∧
    mkStopVisit exST1 exFR1 ∈ valid_gtfs_data exStopTimes exRouteTrips :=
  ⟨c3_no_trip_dropped.1 exRouteTrips,
   c3_no_trip_dropped.2 exStopTimes exRouteTrips exST1 exFR1 (by decide) (by decide) (by decide)⟩

/-- C6: every trip with k stop visits yields exactly k(k-1)/2 stop-pair
segments (0 for k at most 1), and a route group all of whose trips yield
no segment returns the empty marker none instead of writing a spill
file. -/
theorem c6_segment_count :
    (∀ (route : String) (rows : List StopVisit),
        (processTrip route rows).length = rows.length * (rows.length - 1) / 2) ∧
    (∀ (route : String) (df : List StopVisit),
        (∀ tid ∈ trip_ids df,
            processTrip route (df.filter (fun r => decide (r.trip_id = tid))) = []) →
        process_route_to_parquet route df = none) := by
  constructor
  · intro route rows
    unfold processTrip
    rw [List.length_map]
    have h2 := segPairs_length (sorted_trip rows)
    have h3 : (sorted_trip rows).length = rows.length := length_sortBy _ _
    rw [h3] at h2
    omega
  · intro route df h
    unfold process_route_to_parquet
    have hrec : (trip_ids df).flatMap
        (fun tid => processTrip route (df.filter (fun r => decide (r.trip_id = tid)))) = [] :=
      List.flatMap_eq_nil_iff.mpr h
    simp only [hrec]
    rfl

/-- Witness for c6_segment_count: the three-stop scenario trip yields
three segments, and the one-stop route group yields none. -/
theorem c6_segment_count_witness :
    (processTrip "R1" exTripScenario).length = 3 ∧
    process_route_to_parquet "R9" exOneStop = none :=
  ⟨(c6_segment_count.1 "R1" exTripScenario).trans (by decide),
   c6_segment_count.2 "R9" exOneStop (by with_unfolding_all decide)⟩

/-- C7: for every pair of positions i before j in the stop-sequence
order of a trip, the derived segments contain one from stop i to stop j
whose travel time is the destination arrival minus the origin departure,
clamped to zero, in minutes rounded to two decimals; concretely the trip
A (dep 08:00), B (arr 08:10, dep 08:12), C (arr 08:20) yields travel
times 10, 20 and 8 minutes. -/
theorem c7_travel_time :
    (∀ (route : String) (rows : List StopVisit) (i j : Nat),
        j < (sorted_trip rows).length → i < j →
        ∃ s, s ∈ processTrip route rows ∧
          s.from_stop_id = ((sorted_trip rows).getD i defaultVisit).stop_id ∧
          s.to_stop_id = ((sorted_trip rows).getD j defaultVisit).stop_id ∧
          s.travel_time = round2
            (((max (((sorted_trip rows).getD j defaultVisit).arrival_time -
                ((sorted_trip rows).getD i defaultVisit).departure_time) 0 : Int) : ℚ) / 60)) ∧
    (processTrip "R1" exTripScenario).map (fun s => s.travel_time) = [10, 20, 8] := by
  constructor
  · intro route rows i j hj hij
    refine ⟨mkSegment route ((sorted_trip rows).getD i defaultVisit)
        ((sorted_trip rows).getD j defaultVisit), ?_, rfl, rfl, rfl⟩
    unfold processTrip
    exact List.mem_map.mpr ⟨(_, _), pair_getD_mem_segPairs _ _ _ _ hj hij, rfl⟩
  · with_unfolding_all decide

/-- Witness for c7_travel_time at the first two stops of the scenario
trip. -/
theorem c7_travel_time_witness :
    ∃ s, s ∈ processTrip "R1" exTripScenario ∧
      s.from_stop_id = ((sorted_trip exTripScenario).getD 0 defaultVisit).stop_id ∧
      s.to_stop_id = ((sorted_trip exTripScenario).getD 1 defaultVisit).stop_id ∧
      s.travel_time = round2
        (((max (((sorted_trip exTripScenario).getD 1 defaultVisit).arrival_time -
            ((sorted_trip exTripScenario).getD 0 defaultVisit).departure_time) 0 : Int) : ℚ) / 60) :=
  c7_travel_time.1 "R1" exTripScenario 0 1 (by decide) (by decide)

/-- C8: in the final report every travel-time statistic is rounded to the
nearest integer minute and clipped to at least one, so every reported
travel-time value is at least 1; in particular an aggregated travel time
of exactly 0.4 minutes is reported as 1, never 0. -/
theorem c8_travel_time_clip :
    (∀ (segs : List Segment) (stops : List StopLocality) (r : ReportRow),
        r ∈ transit_summary segs stops →
        1 ≤ r.travel_time_min ∧ 1 ≤ r.travel_time_max ∧ 1 ≤ r.travel_time_median) ∧
    clip_round (2 / 5) = 1 := by
  constructor
  · intro segs stops r hr
    unfold transit_summary at hr
    obtain ⟨d, _, rfl⟩ := List.mem_map.1 (List.mem_filter.1 hr).1
    exact ⟨le_max_left _ _, le_max_left _ _, le_max_left _ _⟩
  · with_unfolding_all decide

/-- Witness for c8_travel_time_clip at the one-row report of the
five-minute example segment. -/
theorem c8_travel_time_clip_witness :
    exReport ∈ transit_summary [exSeg] exStopsLoc ∧
    (1 ≤ exReport.travel_time_min ∧ 1 ≤ exReport.travel_time_max ∧
     1 ≤ exReport.travel_time_median) :=
  ⟨by with_unfolding_all decide,
   c8_travel_time_clip.1 [exSeg] exStopsLoc exReport (by with_unfolding_all decide)⟩

/-- C9: every row of the final report has distinct from and to locality
codes; rows with null codes were discarded by the grouping passes and the
final filter removes the equal-code rows. -/
theorem c9_distinct_localities :
    ∀ (segs : List Segment) (stops : List StopLocality) (r : ReportRow),
      r ∈ transit_summary segs stops → r.from_loc_code ≠ r.to_loc_code := by
  intro segs stops r hr
  unfold transit_summary at hr
  have hr' := List.mem_filter.1 hr
  obtain ⟨d, hd, rfl⟩ := List.mem_map.1 hr'.1
  have hne : pandas_ne d.key.from_loc_code d.key.to_loc_code = true := hr'.2
  obtain ⟨c, hc, hdk⟩ := stepD_key_from_input _ d hd
  obtain ⟨b, hb, hck⟩ := stepC_key_from_input _ c hc
  have hsome := stepB_loc_codes_some _ b hb
  have hfrom : d.key.from_loc_code = b.key.from_loc_code := by
    rw [hdk]
    show c.key.from_loc_code = b.key.from_loc_code
    rw [hck]
    rfl
  have hto : d.key.to_loc_code = b.key.to_loc_code := by
    rw [hdk]
    show c.key.to_loc_code = b.key.to_loc_code
    rw [hck]
    rfl
  obtain ⟨p, hp⟩ := Option.isSome_iff_exists.1 hsome.1
  obtain ⟨q, hq⟩ := Option.isSome_iff_exists.1 hsome.2
  rw [hfrom, hp, hto, hq] at hne
  have hpq : p ≠ q := by simpa [pandas_ne] using hne
  show d.key.from_loc_code ≠ d.key.to_loc_code
  rw [hfrom, hp, hto, hq]
  exact fun h => hpq (Option.some.inj h)

/-- Witness for c9_distinct_localities at the one-row report of the
five-minute example segment. -/
theorem c9_distinct_localities_witness :
    exReport ∈ transit_summary [exSeg] exStopsLoc ∧
    exReport.from_loc_code ≠ exReport.to_loc_code :=
  ⟨by with_unfolding_all decide,
   c9_distinct_localities [exSeg] exStopsLoc exReport (by with_unfolding_all decide)⟩

end SEQTransit
